import Mathlib

/-!
Shallow embedding of the article-to-anki pipeline (JapanColorado/article-to-anki)
and proofs about its card parsing, export, caching, comment stripping and
ledger behaviour.

The repository contains three historical variants of the pipeline:
  * `articles-to-anki.py`   - a monolithic script (fetch_article_text,
    split_cards, add_to_anki, export_to_file, main);
  * `articles.py` + `export_cards.py` + `main.py` - a class-based variant
    (Article, ExportCards);
  * `articles_to_anki/cli.py` - the packaged command-line driver (its
    `articles` and `export_cards` modules are not in the source tree; where a
    property depends on them, the missing behaviour is modelled from the spec
    and marked as such).

All definitions below are direct translations of the Python source; line
numbers in comments refer to the corresponding source files.  Python string
operations are re-implemented structurally over `List Char` so that every
definition evaluates by kernel reduction.
-/

namespace ArticlesToAnki

/-! ## Python string primitives -/

/-- Python `str.strip()`: remove leading and trailing whitespace. -/
def pyStrip (s : String) : String :=
  String.mk (((s.toList.dropWhile Char.isWhitespace).reverse.dropWhile
    Char.isWhitespace).reverse)

/-- Python `str.upper()` (ASCII letters, which is all the markers use). -/
def pyUpper (s : String) : String :=
  String.mk (s.toList.map Char.toUpper)

/-- Python `str.startswith(pre)`. -/
def pyStartsWith (s pre : String) : Bool :=
  pre.toList.isPrefixOf s.toList

/-- Helper for `pySplitlines`: split a character list at newline characters.
Always returns a nonempty list of segments. -/
def splitLinesList : List Char → List (List Char)
  | [] => [[]]
  | x :: rest =>
    let r := splitLinesList rest
    if x = '\n' then [] :: r
    else
      match r with
      | [] => [[x]]
      | h :: t => (x :: h) :: t

/-- Python `str.splitlines()` (with `"\n"` line terminators): the empty string
yields `[]` and a trailing newline does not produce a trailing empty line. -/
def pySplitlines (s : String) : List String :=
  let parts := (splitLinesList s.toList).map String.mk
  if parts.getLast? = some "" then parts.dropLast else parts

/-- Fuelled splitter at a (nonempty) separator, Python `str.split(sep)`
semantics; the fuel is an upper bound on the number of characters consumed. -/
def splitSepFuel (sep : List Char) : Nat → List Char → List (List Char)
  | _, [] => [[]]
  | 0, cs => [cs]
  | fuel + 1, x :: rest =>
    if sep.isPrefixOf (x :: rest) then
      [] :: splitSepFuel sep fuel ((x :: rest).drop sep.length)
    else
      match splitSepFuel sep fuel rest with
      | [] => [[x]]
      | h :: t => (x :: h) :: t

/-- Python `s.split(sep)` for a nonempty separator `sep`. -/
def pySplit (s sep : String) : List String :=
  (splitSepFuel sep.toList s.toList.length s.toList).map String.mk

/-- Contiguous-sublist test on lists of characters. -/
def listIsInfix (needle hay : List Char) : Bool :=
  hay.tails.any (fun t => needle.isPrefixOf t)

/-- The Python `needle in hay` test for strings: contiguous substring containment. -/
def strContains (needle hay : String) : Bool :=
  listIsInfix needle.toList hay.toList

/-- Python tuple unpacking `a, b = parts`: succeeds exactly when the list has
two elements, otherwise raises a `ValueError`. -/
def pyUnpack2 (parts : List String) : Except String (String × String) :=
  match parts with
  | [a, b] => .ok (a, b)
  | _ :: _ :: _ :: _ => .error "ValueError: too many values to unpack"
  | _ => .error "ValueError: not enough values to unpack"

/-- Join a list of strings with newline separators (used to model
`"\n".join(...)`). -/
def joinNewline (ls : List String) : String :=
  String.mk (List.intercalate ['\n'] (ls.map String.toList))

/-! ## Card parsing (`split_cards`, articles-to-anki.py lines 147-169; the
same loop appears verbatim inside `Article.generate_cards`, articles.py lines
212-230). State is (cloze list, basic list, current section), the section
being `none` before the first marker, `some true` in the CLOZE section and
`some false` in the BASIC section. -/

/-- One iteration of the `for line in generated_text.splitlines()` loop. -/
def splitCardsStep (st : List String × List String × Option Bool)
    (rawLine : String) : List String × List String × Option Bool :=
  let line := pyStrip rawLine
  if line = "" then st
  else if pyStartsWith (pyUpper line) "CLOZE" then (st.1, st.2.1, some true)
  else if pyStartsWith (pyUpper line) "BASIC" then (st.1, st.2.1, some false)
  else
    match st.2.2 with
    | some true => (st.1 ++ [line], st.2.1, st.2.2)
    | some false => (st.1, st.2.1 ++ [line], st.2.2)
    | none => st

/-- `split_cards(generated_text)`: returns (cloze cards, basic cards). -/
def split_cards (generatedText : String) : List String × List String :=
  let st := (pySplitlines generatedText).foldl splitCardsStep ([], [], none)
  (st.1, st.2.1)

/-! Reference state machine for the parsing grammar (spec section 4.4 /
design note "free-text parsing as a state machine"). -/

/-- The two-section parser state: no section seen yet, cloze, or basic. -/
inductive CardSection where
  | noSection
  | clozeSection
  | basicSection
deriving DecidableEq, Repr

/-- Single-pass scan over a list of (already stripped) lines: blank lines are
skipped, CLOZE/BASIC prefixes (of the uppercased line) switch the section and
are discarded, other lines go to the active section, lines before the first
marker are discarded. -/
def sectionScan : CardSection → List String → List String × List String
  | _, [] => ([], [])
  | sec, line :: rest =>
    if line = "" then sectionScan sec rest
    else if pyStartsWith (pyUpper line) "CLOZE" then sectionScan .clozeSection rest
    else if pyStartsWith (pyUpper line) "BASIC" then sectionScan .basicSection rest
    else
      match sec with
      | .noSection => sectionScan .noSection rest
      | .clozeSection =>
        let r := sectionScan .clozeSection rest
        (line :: r.1, r.2)
      | .basicSection =>
        let r := sectionScan .basicSection rest
        (r.1, line :: r.2)

/-- The scan exactly as the claim words it: the raw line (not its stripped
form) is tested against the markers and appended verbatim; blank
(whitespace-only) lines are skipped. -/
def sectionScanVerbatim : CardSection → List String → List String × List String
  | _, [] => ([], [])
  | sec, line :: rest =>
    if pyStrip line = "" then sectionScanVerbatim sec rest
    else if pyStartsWith (pyUpper line) "CLOZE" then sectionScanVerbatim .clozeSection rest
    else if pyStartsWith (pyUpper line) "BASIC" then sectionScanVerbatim .basicSection rest
    else
      match sec with
      | .noSection => sectionScanVerbatim .noSection rest
      | .clozeSection =>
        let r := sectionScanVerbatim .clozeSection rest
        (line :: r.1, r.2)
      | .basicSection =>
        let r := sectionScanVerbatim .basicSection rest
        (r.1, line :: r.2)

/-- The parser as the claim describes it, literally: lines are classified and
appended without stripping. -/
def split_cards_as_claimed (generatedText : String) : List String × List String :=
  sectionScanVerbatim .noSection (pySplitlines generatedText)

/-- Section tracking of `splitCardsStep` in isolation. -/
def nextSec (sec : Option Bool) (rawLine : String) : Option Bool :=
  let line := pyStrip rawLine
  if line = "" then sec
  else if pyStartsWith (pyUpper line) "CLOZE" then some true
  else if pyStartsWith (pyUpper line) "BASIC" then some false
  else sec

/-- Translation between the `Option Bool` section encoding of the loop and
`CardSection`. -/
def ofSec : Option Bool → CardSection
  | none => .noSection
  | some true => .clozeSection
  | some false => .basicSection

theorem splitCards_foldl_char (ls : List String) (c b : List String)
    (sec : Option Bool) :
    ls.foldl splitCardsStep (c, b, sec) =
      (c ++ (sectionScan (ofSec sec) (ls.map pyStrip)).1,
       b ++ (sectionScan (ofSec sec) (ls.map pyStrip)).2,
       ls.foldl nextSec sec) := by
  induction ls generalizing c b sec with
  | nil => simp [sectionScan]
  | cons l rest ih =>
    simp only [List.foldl_cons, List.map_cons]
    by_cases h0 : pyStrip l = ""
    · rw [show splitCardsStep (c, b, sec) l = (c, b, sec) by
        simp [splitCardsStep, h0]]
      rw [show nextSec sec l = sec by simp [nextSec, h0]]
      rw [ih]
      simp [sectionScan, h0]
    · by_cases h1 : pyStartsWith (pyUpper (pyStrip l)) "CLOZE"
      · rw [show splitCardsStep (c, b, sec) l = (c, b, some true) by
          simp [splitCardsStep, h0, h1]]
        rw [show nextSec sec l = some true by simp [nextSec, h0, h1]]
        rw [ih]
        simp [sectionScan, h0, h1, ofSec]
      · by_cases h2 : pyStartsWith (pyUpper (pyStrip l)) "BASIC"
        · rw [show splitCardsStep (c, b, sec) l = (c, b, some false) by
            simp [splitCardsStep, h0, h1, h2]]
          rw [show nextSec sec l = some false by simp [nextSec, h0, h1, h2]]
          rw [ih]
          simp [sectionScan, h0, h1, h2, ofSec]
        · rw [show nextSec sec l = sec by simp [nextSec, h0, h1, h2]]
          match sec with
          | none =>
            rw [show splitCardsStep (c, b, none) l = (c, b, none) by
              simp [splitCardsStep, h0, h1, h2]]
            rw [ih]
            simp [sectionScan, h0, h1, h2, ofSec]
          | some true =>
            rw [show splitCardsStep (c, b, some true) l
                = (c ++ [pyStrip l], b, some true) by
              simp [splitCardsStep, h0, h1, h2]]
            rw [ih]
            simp [sectionScan, h0, h1, h2, ofSec]
          | some false =>
            rw [show splitCardsStep (c, b, some false) l
                = (c, b ++ [pyStrip l], some false) by
              simp [splitCardsStep, h0, h1, h2]]
            rw [ih]
            simp [sectionScan, h0, h1, h2, ofSec]

/-! ## Exporter (`export_cards.py`, and `add_to_anki` / `export_to_file` in
articles-to-anki.py) -/

/-- The note object sent in an AnkiConnect `addNote` request
(export_cards.py lines 43-50; identically articles-to-anki.py lines 174-181).
`textField` models the extra `"Text"` field added for cloze notes. -/
structure AnkiNote where
  deckName : String
  modelName : String
  front : String
  back : String
  textField : Option String
  tags : List String
deriving DecidableEq, Repr

/-- Note construction in `_export_to_anki(front, back, is_cloze)` /
`add_to_anki(front, back, title, is_cloze, deck)`. -/
def mkNote (deck title front back : String) (isCloze : Bool) : AnkiNote :=
  { deckName := deck
  , modelName := if isCloze then "Cloze" else "Basic"
  , front := front
  , back := back
  , textField := if isCloze then some front else none
  , tags := ["article->anki", title] }

/-- The cloze loop of `ExportCards.export` in AnkiConnect mode
(export_cards.py lines 35-37): `front, back = card.split(" ; ")` then
`_export_to_anki(front, back, True)`.  Returns the notes whose requests were
issued before any `ValueError`, and the error if one was raised. -/
def sendClozeCards (deck title : String) :
    List String → List AnkiNote × Option String
  | [] => ([], none)
  | card :: rest =>
    match pyUnpack2 (pySplit card " ; ") with
    | .error e => ([], some e)
    | .ok (front, back) =>
      let r := sendClozeCards deck title rest
      (mkNote deck title front back true :: r.1, r.2)

/-- One line of `_export_to_file` (export_cards.py line 67; identically
articles-to-anki.py line 202): `f"{card} {title} ;"`. -/
def exportFileLine (card title : String) : String :=
  card ++ " " ++ title ++ " ;"

/-- `_export_to_file(cards, title, is_cloze)`: the lines appended to the
batch file, one per card, in order. -/
def export_to_file (cards : List String) (title : String) : List String :=
  cards.map (fun card => exportFileLine card title)

/-- The observable outcome of `ExportCards.export`: either the lines appended
to the two batch files, or the `addNote` requests issued (with the
`ValueError` if the run aborted). -/
inductive ExportOutcome where
  | toFile (clozeLines basicLines : List String)
  | toAnki (sent : List AnkiNote) (err : Option String)
deriving DecidableEq, Repr

/-- The `ExportCards` object (export_cards.py lines 19-24). -/
structure ExportCards where
  cloze_cards : List String
  basic_cards : List String
  title : String
  deck : String
  to_file : Bool
deriving DecidableEq, Repr

/-- `ExportCards.export` (export_cards.py lines 26-40).  In file mode both
lists are appended to files; in AnkiConnect mode each cloze card is unpacked
at `" ; "` (raising `ValueError` on any other field count) while each basic
card is sent whole, with the article title as the `Back` field. -/
def ExportCards.exportAll (e : ExportCards) : ExportOutcome :=
  if e.to_file then
    .toFile (export_to_file e.cloze_cards e.title) (export_to_file e.basic_cards e.title)
  else
    match sendClozeCards e.deck e.title e.cloze_cards with
    | (sent, some err) => .toAnki sent (some err)
    | (sent, none) =>
      .toAnki (sent ++ e.basic_cards.map (fun card => mkNote e.deck e.title card e.title false))
        none

/-! ## HTML comment stripping and text extraction
(articles.py lines 97-107 and articles-to-anki.py lines 64-74).

The readability-reduced document is modelled as a tree of elements carrying an
optional `id` attribute and a list of `class` attribute values, with text
leaves. -/

/-- A node of the reduced HTML document. -/
inductive HNode where
  | text (s : String)
  | elem (idAttr : Option String) (classes : List String) (children : List HNode)

/-- Python `str.lower()` (ASCII letters suffice here). -/
def pyLower (s : String) : String :=
  String.mk (s.toList.map Char.toLower)

/-- The tag predicate of articles.py lines 98-103.  In BeautifulSoup `t["id"]`
is a plain string, so `any("comment" in x.lower() for x in t["id"])` iterates
over the *characters* of the id; the embedding reproduces that faithfully
(`x.lower()` on a one-character string is the one-character string of the
lowercased character). -/
def matchesCommentArticles (idAttr : Option String) (classes : List String) : Bool :=
  (match idAttr with
   | some i => i.toList.any (fun c => strContains "comment" (String.singleton c.toLower))
   | none => false)
  || classes.any (fun x => strContains "comment" (pyLower x))

/-- The tag predicate of articles-to-anki.py lines 65-69, where the id is
tested as a whole string: `"comment" in t["id"].lower()`. -/
def matchesCommentMonolith (idAttr : Option String) (classes : List String) : Bool :=
  (match idAttr with
   | some i => strContains "comment" (pyLower i)
   | none => false)
  || classes.any (fun x => strContains "comment" (pyLower x))

mutual

/-- `tag.decompose()` applied to every tag matched by `p`: the node is kept
(with its matched descendants removed) unless it matches itself. -/
def stripNode (p : Option String → List String → Bool) : HNode → Option HNode
  | .text s => some (.text s)
  | .elem i cls ch =>
    if p i cls then none else some (.elem i cls (stripNodes p ch))

/-- `stripNode` over a list of siblings. -/
def stripNodes (p : Option String → List String → Bool) : List HNode → List HNode
  | [] => []
  | n :: rest =>
    match stripNode p n with
    | none => stripNodes p rest
    | some m => m :: stripNodes p rest

end

mutual

/-- The stripped text segments of `soup.get_text(separator="\n", strip=True)`:
every string in document order, stripped, empty results dropped. -/
def textsNode : HNode → List String
  | .text s => if pyStrip s = "" then [] else [pyStrip s]
  | .elem _ _ ch => textsNodes ch

/-- `textsNode` over a list of siblings. -/
def textsNodes : List HNode → List String
  | [] => []
  | n :: rest => textsNode n ++ textsNodes rest

end

/-- The final line filter of both extractors:
`"\n".join(line for line in text.splitlines() if line.strip())`. -/
def dropBlankLines (s : String) : String :=
  joinNewline ((pySplitlines s).filter (fun l => !(pyStrip l = "")))

/-- Text extraction from a reduced document rooted at `root`, after removing
every subtree matched by `p`. -/
def extractVisible (p : Option String → List String → Bool) (root : HNode) : String :=
  dropBlankLines (joinNewline (textsNodes (stripNodes p [root])))

/-- The extraction step of `Article._fetch_from_url_or_cache`
(articles.py lines 95-107). -/
def extractTextArticles (root : HNode) : String :=
  extractVisible matchesCommentArticles root

/-- The extraction step of `fetch_article_text`
(articles-to-anki.py lines 62-74). -/
def extractTextMonolith (root : HNode) : String :=
  extractVisible matchesCommentMonolith root

/-- A page whose reduced document carries a `<div id="comments">` block. -/
def commentsPage : HNode :=
  .elem none [] [.text "Body text.", .elem (some "comments") [] [.text "Nice post!"]]

/-- `"comment"` is never a substring of a single (lowercased) character, so
the id half of the articles.py predicate can never fire. -/
theorem matchesCommentArticles_id_dead (i : String) :
    matchesCommentArticles (some i) [] = false := by
  simp only [matchesCommentArticles, List.any_nil, Bool.or_false]
  rw [List.any_eq_false]
  intro c _
  have h7 : ("comment".toList : List Char) = ['c', 'o', 'm', 'm', 'e', 'n', 't'] := rfl
  have hs : (String.singleton c.toLower).toList = [c.toLower] := rfl
  simp [strContains, listIsInfix, h7, hs, List.tails, List.isPrefixOf]

/-! ## `Article` and the fetch cache (articles.py lines 18-139)

The cache directory holds at most one file per URL, at a path determined by
the sha256 hex digest of the URL (articles.py lines 66-69); the digest is
modelled as an opaque injective key (the URL itself), since no claim depends
on the form of the digest.  `requests.get` + readability + BeautifulSoup + the GPT
fallback are modelled together as one oracle `net` giving the (title, text)
a successful network fetch and extraction would produce, `none` standing for
a `requests.exceptions.RequestException` (or a fallback that also fails),
which the source converts to a raised `RuntimeError`. -/

/-- The fields of the `Article` object (articles.py lines 26-29). -/
structure Article where
  url : Option String
  file_path : Option String
  title : Option String
  text : Option String
deriving DecidableEq, Repr

/-- `Article.__init__(url, file_path)` (articles.py lines 18-29): both
identity arguments are stored as given; no mutual-exclusivity check. -/
def Article.init (url file_path : Option String) : Article :=
  { url := url, file_path := file_path, title := none, text := none }

/-- `os.path.join(".article_cache", f"{url_hash}.txt")` with the sha256 hex
digest modelled as the URL itself. -/
def cachePathOf (url : String) : String :=
  ".article_cache/" ++ url ++ ".txt"

/-- First line of a cache file as read back by articles.py line 75
(`lines[0].strip()`): the part before the first newline, stripped. -/
def cacheTitle (content : String) : String :=
  pyStrip (String.mk (content.toList.takeWhile (fun c => c != '\n')))

/-- Remainder of a cache file as read back by articles.py line 76
(`"".join(lines[1:]).strip()`): the part after the first newline, stripped. -/
def cacheBody (content : String) : String :=
  pyStrip (String.mk ((content.toList.dropWhile (fun c => c != '\n')).drop 1))

/-- Result of `Article._fetch_from_url_or_cache`: the updated article, the
content of the cache file of the URL afterwards, and whether `requests.get` ran. -/
structure FetchResult where
  article : Article
  cacheAfter : Option String
  networkUsed : Bool
deriving DecidableEq, Repr

/-- The network branch of `_fetch_from_url_or_cache` (articles.py lines
79-139): fetch and extract, raise `RuntimeError` on failure, and write
`title + "\n" + text` to the cache file when caching is on. -/
def fetchNetwork (a : Article) (useCache : Bool) (cache : Option String)
    (net : Option (String × String)) : Except String FetchResult :=
  match net with
  | none => .error ("Failed to fetch " ++ (a.url.getD ""))
  | some (t, x) =>
    .ok { article := { a with title := some t, text := some x }
        , cacheAfter := if useCache then some (t ++ "\n" ++ x) else cache
        , networkUsed := true }

/-- `Article._fetch_from_url_or_cache(use_cache)` (articles.py lines 57-139).
When caching is on and the cache file exists, `self.file_path` is set to the
cache path; if the file is furthermore nonempty its first line and remainder
are returned as title and body with no network request, otherwise the code
falls through to the network branch. -/
def fetchFromUrlOrCache (a : Article) (useCache : Bool) (cache : Option String)
    (net : Option (String × String)) : Except String FetchResult :=
  if useCache then
    match cache with
    | some content =>
      let a2 := { a with file_path := some (cachePathOf (a.url.getD "")) }
      if content = "" then fetchNetwork a2 useCache cache net
      else
        .ok { article := { a2 with title := some (cacheTitle content)
                                 , text := some (cacheBody content) }
            , cacheAfter := some content
            , networkUsed := false }
    | none => fetchNetwork a useCache cache net
  else fetchNetwork a useCache cache net

/-! ## The monolithic pipeline (`articles-to-anki.py` lines 21-82 and
242-267).  `net url` is the oracle for `requests.get` + extraction on `url`
(`.error` = `requests.exceptions.RequestException`); `gen text` is the
response text of the completion service for an article body. -/

/-- `fetch_article_text(url)` (articles-to-anki.py lines 21-82, cache off):
the `(text, title)` pair, or `none` when the request raised (the handler at
lines 55-57 returns `(None, None)`). -/
def fetch_article_text (net : String → Except String (String × String))
    (url : String) : Option (String × String) :=
  (net url).toOption

/-- What the main loop does with one URL. -/
inductive ArticleStep where
  | skip (url : String) (title : Option String)
  | done (clozeLines basicLines : List String)
deriving DecidableEq, Repr

/-- One iteration of the loop at articles-to-anki.py lines 242-267 (file
mode): failed or empty fetches append to `skipped_articles` and `continue`;
otherwise cards are generated, split and exported. -/
def article_step (net : String → Except String (String × String))
    (gen : String → String) (url : String) : ArticleStep :=
  match fetch_article_text net url with
  | none => .skip url none
  | some (text, title) =>
    if text = "" then .skip url (some title)
    else if title = "" then .skip url (some url)
    else
      let cards := split_cards (gen text)
      .done (export_to_file cards.1 title) (export_to_file cards.2 title)

/-- Everything the run produced: per-article exported file lines in order,
and the `skipped_articles` list printed at the end. -/
structure RunResult where
  exported : List (List String × List String)
  skipped : List (String × Option String)
deriving DecidableEq, Repr

/-- The whole `for url in urls` loop of `main` (file mode). -/
def run_articles (net : String → Except String (String × String))
    (gen : String → String) : List String → RunResult
  | [] => ⟨[], []⟩
  | url :: rest =>
    let r := run_articles net gen rest
    match article_step net gen url with
    | .skip u t => ⟨r.exported, (u, t) :: r.skipped⟩
    | .done c b => ⟨(c, b) :: r.exported, r.skipped⟩

theorem run_articles_append (net : String → Except String (String × String))
    (gen : String → String) (l1 l2 : List String) :
    run_articles net gen (l1 ++ l2) =
      ⟨(run_articles net gen l1).exported ++ (run_articles net gen l2).exported,
       (run_articles net gen l1).skipped ++ (run_articles net gen l2).skipped⟩ := by
  induction l1 with
  | nil => simp [run_articles]
  | cons u rest ih =>
    simp only [List.cons_append, run_articles]
    cases article_step net gen u <;> simp [List.append_eq, ih]

/-! ## The packaged CLI loop (`articles_to_anki/cli.py` lines 215-248).

The `Article`/`ExportCards` classes this loop drives are not in the source
tree.  Modelled from the spec: `is_processed` is membership of
(identifier, deck) in the persisted ledger (spec section 4.6), and
`fetch_content(skip_if_processed=True)` performs no fetch for a processed
article.  `net id` is the fetched body for article `id` (`none` = fetch
failed, leaving `article.text` unset); `gen text` is the
`generate_cards` result for a body. -/

/-- Observable per-article actions of the CLI loop, used to state which
articles were fetched, generated, exported or skipped. -/
inductive CliAction where
  | fetched (id : String)
  | generated (id : String)
  | exported (id : String) (cloze basic : List String)
  | skippedProcessed (id : String)
  | noCards (id : String)
deriving DecidableEq, Repr

/-- The article an action belongs to. -/
def CliAction.ident : CliAction → String
  | .fetched i => i
  | .generated i => i
  | .exported i _ _ => i
  | .skippedProcessed i => i
  | .noCards i => i

/-- Whether an action is an export. -/
def CliAction.isExport : CliAction → Bool
  | .exported _ _ _ => true
  | _ => false

/-- The cards the loop ends up with for an article: `generate_cards` output
when there is text, `([], [])` when the fetch failed (cli.py lines 223-225). -/
def cardsOf (net : String → Option String)
    (gen : String → List String × List String) (id : String) :
    List String × List String :=
  match net id with
  | some text => gen text
  | none => ([], [])

/-- One iteration of the loop at cli.py lines 215-248: skip when processed
and not `--process_all`; otherwise fetch, generate, and - only when at least
one card was produced - export and `mark_as_processed(deck)`.  On zero cards
the loop `continue`s at line 229, before `mark_as_processed` at line 245. -/
def cli_article_step (deck : String) (processAll : Bool)
    (net : String → Option String) (gen : String → List String × List String)
    (ledger : List (String × String)) (id : String) :
    List (String × String) × List CliAction :=
  if (id, deck) ∈ ledger ∧ processAll = false then
    (ledger, [.skippedProcessed id])
  else
    let cards := cardsOf net gen id
    if cards.1 = [] ∧ cards.2 = [] then
      (ledger, [.fetched id, .noCards id])
    else
      ((id, deck) :: ledger, [.fetched id, .generated id, .exported id cards.1 cards.2])

/-- The whole `for article in articles` loop: threads the ledger and records
the actions in order. -/
def cli_run (deck : String) (processAll : Bool) (net : String → Option String)
    (gen : String → List String × List String) :
    List String → List (String × String) → List (String × String) × List CliAction
  | [], ledger => (ledger, [])
  | id :: rest, ledger =>
    let s := cli_article_step deck processAll net gen ledger id
    let r := cli_run deck processAll net gen rest s.1
    (r.1, s.2 ++ r.2)

theorem cli_article_step_ledger_mono (deck : String) (processAll : Bool)
    (net : String → Option String) (gen : String → List String × List String)
    (ledger : List (String × String)) (id : String) (p : String × String)
    (hp : p ∈ ledger) :
    p ∈ (cli_article_step deck processAll net gen ledger id).1 := by
  unfold cli_article_step
  by_cases h1 : (id, deck) ∈ ledger ∧ processAll = false
  · simp [h1, hp]
  · rw [if_neg h1]
    by_cases h2 : (cardsOf net gen id).1 = [] ∧ (cardsOf net gen id).2 = []
    · simp [h2, hp]
    · simp [h2, hp]

theorem cli_run_ledger_mono (deck : String) (processAll : Bool)
    (net : String → Option String) (gen : String → List String × List String)
    (ids : List String) (ledger : List (String × String)) (p : String × String)
    (hp : p ∈ ledger) :
    p ∈ (cli_run deck processAll net gen ids ledger).1 := by
  induction ids generalizing ledger with
  | nil => simpa [cli_run] using hp
  | cons id rest ih =>
    simp only [cli_run]
    exact ih _ (cli_article_step_ledger_mono deck processAll net gen ledger id p hp)

theorem cli_article_step_ident (deck : String) (processAll : Bool)
    (net : String → Option String) (gen : String → List String × List String)
    (ledger : List (String × String)) (id : String) (a : CliAction)
    (ha : a ∈ (cli_article_step deck processAll net gen ledger id).2) :
    a.ident = id := by
  unfold cli_article_step at ha
  by_cases h1 : (id, deck) ∈ ledger ∧ processAll = false
  · rw [if_pos h1] at ha
    simp at ha
    simp [ha, CliAction.ident]
  · rw [if_neg h1] at ha
    by_cases h2 : (cardsOf net gen id).1 = [] ∧ (cardsOf net gen id).2 = []
    · rw [if_pos h2] at ha
      simp at ha
      rcases ha with h | h <;> simp [h, CliAction.ident]
    · rw [if_neg h2] at ha
      simp at ha
      rcases ha with h | h | h <;> simp [h, CliAction.ident]

/-- After a run, every article in the list is either in the ledger or yields
zero cards. -/
theorem cli_run_coverage (deck : String) (net : String → Option String)
    (gen : String → List String × List String) (ids : List String)
    (ledger : List (String × String)) (id : String) (hid : id ∈ ids) :
    (id, deck) ∈ (cli_run deck false net gen ids ledger).1
      ∨ cardsOf net gen id = ([], []) := by
  induction ids generalizing ledger with
  | nil => exact absurd hid (List.not_mem_nil id)
  | cons id0 rest ih =>
    simp only [cli_run]
    rcases List.mem_cons.mp hid with h | h
    · subst h
      by_cases h1 : (id, deck) ∈ ledger ∧ (false : Bool) = false
      · left
        unfold cli_article_step
        rw [if_pos h1]
        exact cli_run_ledger_mono deck false net gen rest ledger (id, deck) h1.1
      · by_cases h2 : (cardsOf net gen id).1 = [] ∧ (cardsOf net gen id).2 = []
        · right
          ext1
          · exact h2.1
          · exact h2.2
        · left
          unfold cli_article_step
          rw [if_neg h1, if_neg h2]
          exact cli_run_ledger_mono deck false net gen rest _ (id, deck) (by simp)
    · exact ih _ h

/-- Under full coverage (every article in the list already in the ledger or
yielding zero cards), a run performs no export. -/
theorem cli_run_no_exports (deck : String) (net : String → Option String)
    (gen : String → List String × List String) (ids : List String)
    (ledger : List (String × String))
    (hcov : ∀ id ∈ ids, (id, deck) ∈ ledger ∨ cardsOf net gen id = ([], []))
    (a : CliAction) (ha : a ∈ (cli_run deck false net gen ids ledger).2) :
    a.isExport = false := by
  induction ids generalizing ledger with
  | nil => simp [cli_run] at ha
  | cons id0 rest ih =>
    simp only [cli_run, List.mem_append] at ha
    have hcov0 := hcov id0 (by simp)
    have hcovrest : ∀ i ∈ rest, (i, deck) ∈ ledger ∨ cardsOf net gen i = ([], []) :=
      fun i hi => hcov i (List.mem_cons_of_mem id0 hi)
    have hstep : cli_article_step deck false net gen ledger id0
        = (ledger, [.skippedProcessed id0])
        ∨ cli_article_step deck false net gen ledger id0
        = (ledger, [.fetched id0, .noCards id0]) := by
      unfold cli_article_step
      by_cases h1 : (id0, deck) ∈ ledger ∧ (false : Bool) = false
      · left
        rw [if_pos h1]
      · have hc : cardsOf net gen id0 = ([], []) := by
          rcases hcov0 with h | h
          · exact absurd ⟨h, rfl⟩ h1
          · exact h
        right
        rw [if_neg h1, if_pos ⟨congrArg Prod.fst hc, congrArg Prod.snd hc⟩]
    rcases hstep with h | h <;> rw [h] at ha
    · rcases ha with ha | ha
      · simp at ha
        simp [ha, CliAction.isExport]
      · exact ih ledger hcovrest ha
    · rcases ha with ha | ha
      · rcases (by simpa using ha : a = .fetched id0 ∨ a = .noCards id0) with h2 | h2 <;>
          simp [h2, CliAction.isExport]
      · exact ih ledger hcovrest ha

/-- An article whose (identifier, deck) pair is in the ledger produces only a
skip action - no fetch, no generation, no export - in any later run. -/
theorem cli_run_skips_processed (deck : String) (net : String → Option String)
    (gen : String → List String × List String) (ids : List String)
    (ledger : List (String × String)) (id : String)
    (hmem : (id, deck) ∈ ledger) (a : CliAction)
    (ha : a ∈ (cli_run deck false net gen ids ledger).2) (hident : a.ident = id) :
    a = .skippedProcessed id := by
  induction ids generalizing ledger with
  | nil => simp [cli_run] at ha
  | cons id0 rest ih =>
    simp only [cli_run, List.mem_append] at ha
    rcases ha with ha | ha
    · by_cases h0 : id0 = id
      · subst h0
        unfold cli_article_step at ha
        rw [if_pos ⟨hmem, rfl⟩] at ha
        simp at ha
        exact ha
      · have hi := cli_article_step_ident deck false net gen ledger id0 a ha
        rw [hident] at hi
        exact absurd hi.symm h0
    · exact ih _ (cli_article_step_ledger_mono deck false net gen ledger id0 _ hmem) ha

/-! ## Claim theorems -/

/-- A network oracle on which every request raises. -/
def netFail : String → Except String (String × String) :=
  fun _ => .error "connection refused"

/-- A network oracle on which every request succeeds with a fixed page. -/
def netPage : String → Except String (String × String) :=
  fun _ => .ok ("body text", "Title")

/-- A generator oracle returning a fixed well-formed response. -/
def genFixed : String → String :=
  fun _ => "CLOZE\na ; ;\nBASIC\nq ; a ;"

/-- Claim C1: the claim says a generated card line lacking the " ; "
separator is skipped by the Exporter without raising, leaving sibling cards
intact, in both modes.  In AnkiConnect mode `front, back = card.split(" ; ")`
(export_cards.py line 36, likewise articles-to-anki.py lines 261 and 264)
instead raises `ValueError` on such a line, aborting the remaining cloze
cards and all basic cards of the batch; in file mode the malformed line is
not skipped either but written out verbatim.  This theorem evaluates the
export at such a batch. -/
theorem c1_malformed_cloze_line_raises :
    ExportCards.exportAll ⟨["a ; ;", "bad line", "b ; ;"], ["q ; a ;"], "T", "D", false⟩ =
      .toAnki [mkNote "D" "T" "a" ";" true]
        (some "ValueError: not enough values to unpack")
    ∧ ExportCards.exportAll ⟨["bad line"], [], "T", "D", true⟩ =
      .toFile ["bad line T ;"] [] := by
  exact ⟨by decide, by decide⟩

/-- Claim C2: a failed URL fetch makes `fetch_article_text` return
`(None, None)` (articles-to-anki.py lines 55-57), the article is appended to
`skipped_articles`, and the rest of the source list is processed exactly as
it would have been without the failing article. -/
theorem c2_fetch_failure_skip_and_continue
    (net : String → Except String (String × String)) (gen : String → String)
    (u : String) (e : String) (l1 l2 : List String)
    (h : net u = .error e) :
    article_step net gen u = .skip u none
    ∧ run_articles net gen (l1 ++ u :: l2) =
      ⟨(run_articles net gen l1).exported ++ (run_articles net gen l2).exported,
       (run_articles net gen l1).skipped
         ++ (u, none) :: (run_articles net gen l2).skipped⟩ := by
  have hstep : article_step net gen u = .skip u none := by
    simp only [article_step, fetch_article_text, h, Except.toOption]
  refine ⟨hstep, ?_⟩
  have h2 : run_articles net gen (u :: l2) =
      ⟨(run_articles net gen l2).exported,
       (u, none) :: (run_articles net gen l2).skipped⟩ := by
    simp only [run_articles]
    rw [hstep]
  rw [run_articles_append, h2]

/-- Witness for C2 at a concrete failing oracle and source list. -/
theorem c2_witness :
    netFail "u" = .error "connection refused"
    ∧ (article_step netFail genFixed "u" = .skip "u" none
    ∧ run_articles netFail genFixed (["a"] ++ "u" :: ["b"]) =
      ⟨(run_articles netFail genFixed ["a"]).exported
         ++ (run_articles netFail genFixed ["b"]).exported,
       (run_articles netFail genFixed ["a"]).skipped
         ++ ("u", none) :: (run_articles netFail genFixed ["b"]).skipped⟩) :=
  ⟨rfl, c2_fetch_failure_skip_and_continue netFail genFixed "u" "connection refused"
    ["a"] ["b"] rfl⟩

/-- Claim C3 counterexample: the parser strips each line before classifying
and appending it, so on the response `" CLOZE\nx"` the code recognises the
indented marker and collects `"x"`, while the literal reading of the claim (raw
line tested, appended verbatim) discards everything. -/
theorem c3_counterexample :
    split_cards " CLOZE\nx" = (["x"], [])
    ∧ split_cards_as_claimed " CLOZE\nx" = ([], [])
    ∧ split_cards " CLOZE\nx" ≠ split_cards_as_claimed " CLOZE\nx" := by
  exact ⟨by decide, by decide, by decide⟩

/-- Claim C3 as amended: the parser is the claimed single-pass two-section
state machine, but applied to the *stripped* form of each line - each line is
stripped before the blank test and the marker tests, and the stripped line is
what is appended to the active section. -/
theorem c3_parse_with_stripping (t : String) :
    split_cards t = sectionScan .noSection ((pySplitlines t).map pyStrip) := by
  unfold split_cards
  rw [splitCards_foldl_char]
  simp [ofSec]

/-- Claim C4 counterexample: an article whose generation yields zero cards is
*not* marked processed - the loop `continue`s at cli.py line 229 before
`mark_as_processed` at line 245, leaving the ledger unchanged. -/
theorem c4_counterexample :
    cli_article_step "D" false (fun _ => some "body") (fun _ => ([], [])) [] "a" =
      ([], [.fetched "a", .noCards "a"])
    ∧ ("a", "D") ∉ (cli_article_step "D" false (fun _ => some "body")
        (fun _ => ([], [])) [] "a").1 := by
  exact ⟨by decide, by decide⟩

/-- Claim C4 as amended: for an article not yet in the ledger, the loop marks
it processed exactly when generation produced at least one card; on zero
cards (including a failed fetch, treated as zero cards) it continues without
recording a ledger entry. -/
theorem c4_zero_cards_unmarked (deck id : String) (net : String → Option String)
    (gen : String → List String × List String) (ledger : List (String × String))
    (h1 : (id, deck) ∉ ledger) :
    (cardsOf net gen id = ([], []) →
      cli_article_step deck false net gen ledger id =
        (ledger, [.fetched id, .noCards id]))
    ∧ (cardsOf net gen id ≠ ([], []) →
      cli_article_step deck false net gen ledger id =
        ((id, deck) :: ledger,
         [.fetched id, .generated id,
          .exported id (cardsOf net gen id).1 (cardsOf net gen id).2])) := by
  have hn : ¬((id, deck) ∈ ledger ∧ (false : Bool) = false) := fun hc => h1 hc.1
  constructor
  · intro hc
    unfold cli_article_step
    rw [if_neg hn, if_pos ⟨congrArg Prod.fst hc, congrArg Prod.snd hc⟩]
  · intro hc
    unfold cli_article_step
    rw [if_neg hn, if_neg (fun hp => hc (Prod.ext hp.1 hp.2))]

/-- Witness for C4 at a concrete article, ledger and zero-card generator. -/
theorem c4_witness :
    ("a", "D") ∉ ([] : List (String × String))
    ∧ cli_article_step "D" false (fun _ => some "body") (fun _ => ([], [])) [] "a" =
      ([], [.fetched "a", .noCards "a"]) :=
  ⟨by decide,
   (c4_zero_cards_unmarked "D" "a" (fun _ => some "body") (fun _ => ([], [])) []
     (by decide)).1 rfl⟩

/-- Claim C5: the claim (and the comment of the code itself at articles.py line 97)
says elements whose id or class contains "comment" are stripped.  In
articles.py lines 98-103 the id test iterates over the *characters* of the id
string, and "comment" is never a substring of a single character, so a
`<div id="comments">` block with no class is kept and its text appears in the
extraction output; the monolith extractor (articles-to-anki.py lines 65-69)
strips it as described. -/
theorem c5_comment_block_survives :
    extractTextArticles commentsPage = "Body text.\nNice post!"
    ∧ strContains "Nice post!" (extractTextArticles commentsPage) = true
    ∧ extractTextMonolith commentsPage = "Body text."
    ∧ strContains "Nice post!" (extractTextMonolith commentsPage) = false := by
  exact ⟨by decide, by decide, by decide, by decide⟩

/-- Claim C6 counterexample: in AnkiConnect mode a basic card is not split at
all (export_cards.py line 39): the whole line `"Q ; A ;"` is sent as the
`Front` field and the article *title* - not the back text of the card `"A"` - as
the `Back` field. -/
theorem c6_counterexample :
    ExportCards.exportAll ⟨[], ["Q ; A ;"], "T", "D", false⟩ =
      .toAnki [⟨"D", "Basic", "Q ; A ;", "T", none, ["article->anki", "T"]⟩] none
    ∧ ("Q ; A ;" : String) ≠ "Q"
    ∧ ("T" : String) ≠ "A" := by
  exact ⟨by decide, by decide, by decide⟩

/-- Claim C6 as amended: in AnkiConnect mode, a cloze card whose split at
`" ; "` yields exactly `[f, r]` (for `"front ; back ;"` this is `f = front`,
`r = "back ;"`, the remainder including the terminator) produces an addNote
request with `Front = f`, `Back = r`, `Text = f`, model `"Cloze"`, the deck
name and tags `["article->anki", title]`; a basic card produces a request
carrying the entire unsplit line as `Front` and the article title as `Back`,
model `"Basic"`, same deck and tags. -/
theorem c6_rpc_note_fields (deck title f r c : String)
    (h : pySplit c " ; " = [f, r]) :
    ExportCards.exportAll ⟨[c], [], title, deck, false⟩ =
      .toAnki [⟨deck, "Cloze", f, r, some f, ["article->anki", title]⟩] none
    ∧ ExportCards.exportAll ⟨[], [c], title, deck, false⟩ =
      .toAnki [⟨deck, "Basic", c, title, none, ["article->anki", title]⟩] none := by
  constructor
  · simp only [ExportCards.exportAll, sendClozeCards, h, pyUnpack2]
    simp [mkNote]
  · simp only [ExportCards.exportAll, sendClozeCards]
    simp [mkNote]

/-- Witness for C6 at the concrete basic-shaped card `"Q ; A ;"`. -/
theorem c6_witness :
    pySplit "Q ; A ;" " ; " = ["Q", "A ;"]
    ∧ (ExportCards.exportAll ⟨["Q ; A ;"], [], "T", "D", false⟩ =
        .toAnki [⟨"D", "Cloze", "Q", "A ;", some "Q", ["article->anki", "T"]⟩] none
      ∧ ExportCards.exportAll ⟨[], ["Q ; A ;"], "T", "D", false⟩ =
        .toAnki [⟨"D", "Basic", "Q ; A ;", "T", none, ["article->anki", "T"]⟩] none) :=
  ⟨by decide, c6_rpc_note_fields "D" "T" "Q" "A ;" "Q ; A ;" (by decide)⟩

/-! Helper equations and list lemmas for the cache claims. -/

theorem fetch_no_cache (a : Article) (cache : Option String)
    (net : Option (String × String)) :
    fetchFromUrlOrCache a false cache net = fetchNetwork a false cache net := rfl

theorem fetch_cache_absent (a : Article) (net : Option (String × String)) :
    fetchFromUrlOrCache a true none net = fetchNetwork a true none net := rfl

theorem fetch_cache_some (a : Article) (c : String) (net : Option (String × String)) :
    fetchFromUrlOrCache a true (some c) net =
      (if c = "" then
        fetchNetwork { a with file_path := some (cachePathOf (a.url.getD "")) }
          true (some c) net
      else
        .ok { article := { a with
                file_path := some (cachePathOf (a.url.getD ""))
                title := some (cacheTitle c)
                text := some (cacheBody c) }
              cacheAfter := some c
              networkUsed := false }) := rfl

theorem mkOfToList (s : String) : String.mk s.toList = s := by
  cases s
  rfl

theorem strToList_append (a b : String) : (a ++ b).toList = a.toList ++ b.toList := by
  cases a
  cases b
  rfl

theorem strToList_nl_concat (t x : String) :
    (t ++ "\n" ++ x).toList = t.toList ++ '\n' :: x.toList := by
  rw [strToList_append, strToList_append]
  simp

theorem takeWhile_to_newline (cs rest : List Char) (h : '\n' ∉ cs) :
    (cs ++ '\n' :: rest).takeWhile (fun c => c != '\n') = cs := by
  induction cs with
  | nil => simp
  | cons c cs ih =>
    have hc : c ≠ '\n' := fun hh => h (hh ▸ List.mem_cons_self c cs)
    simp only [List.cons_append, List.takeWhile_cons]
    rw [if_pos (by simp [hc])]
    rw [ih (fun hm => h (List.mem_cons_of_mem c hm))]

theorem dropWhile_to_newline (cs rest : List Char) (h : '\n' ∉ cs) :
    (cs ++ '\n' :: rest).dropWhile (fun c => c != '\n') = '\n' :: rest := by
  induction cs with
  | nil => simp
  | cons c cs ih =>
    have hc : c ≠ '\n' := fun hh => h (hh ▸ List.mem_cons_self c cs)
    simp only [List.cons_append, List.dropWhile_cons]
    rw [if_pos (by simp [hc])]
    exact ih (fun hm => h (List.mem_cons_of_mem c hm))

theorem append_nl_ne_empty (t x : String) : t ++ "\n" ++ x ≠ "" := by
  intro h
  have h2 := congrArg String.toList h
  rw [strToList_nl_concat] at h2
  simp at h2

theorem cacheTitle_concat (t x : String) (h : '\n' ∉ t.toList) :
    cacheTitle (t ++ "\n" ++ x) = pyStrip t := by
  unfold cacheTitle
  rw [strToList_nl_concat, takeWhile_to_newline t.toList x.toList h, mkOfToList]

theorem cacheBody_concat (t x : String) (h : '\n' ∉ t.toList) :
    cacheBody (t ++ "\n" ++ x) = pyStrip x := by
  unfold cacheBody
  rw [strToList_nl_concat, dropWhile_to_newline t.toList x.toList h]
  rw [show (('\n' :: x.toList).drop 1) = x.toList from rfl, mkOfToList]

/-- Claim C7 counterexample: the cache read strips the stored title and body
(articles.py lines 75-76) while the write stores them as extracted (lines
137-139), so for an extracted title carrying trailing whitespace the second
fetch returns a different title than the first: `"T "` versus `"T"`. -/
theorem c7_counterexample :
    fetchFromUrlOrCache (Article.init (some "u") none) true none (some ("T ", "b")) =
      .ok ⟨⟨some "u", none, some "T ", some "b"⟩, some "T \nb", true⟩
    ∧ fetchFromUrlOrCache (Article.init (some "u") none) true (some "T \nb")
        (some ("T ", "b")) =
      .ok ⟨⟨some "u", some ".article_cache/u.txt", some "T", some "b"⟩,
        some "T \nb", false⟩
    ∧ (some "T " : Option String) ≠ some "T" := by
  exact ⟨rfl, rfl, by decide⟩

/-- Claim C7 as amended: with caching enabled, the first fetch writes
`title + "\n" + body` to the cache file of the URL, and a second fetch reads the
first line as title and the remainder as body, each stripped of surrounding
whitespace, performing no network request (its result does not depend on the
network oracle at all).  Whenever the extracted title contains no newline and
neither title nor body carries surrounding whitespace, the two fetches return
identical (title, body) pairs. -/
theorem c7_cache_roundtrip (url t x : String) (net2 : Option (String × String))
    (h1 : '\n' ∉ t.toList) (h2 : pyStrip t = t) (h3 : pyStrip x = x) :
    fetchFromUrlOrCache (Article.init (some url) none) true none (some (t, x)) =
      .ok ⟨⟨some url, none, some t, some x⟩, some (t ++ "\n" ++ x), true⟩
    ∧ fetchFromUrlOrCache (Article.init (some url) none) true
        (some (t ++ "\n" ++ x)) net2 =
      .ok ⟨⟨some url, some (cachePathOf url), some t, some x⟩,
        some (t ++ "\n" ++ x), false⟩ := by
  constructor
  · rfl
  · rw [fetch_cache_some, if_neg (append_nl_ne_empty t x)]
    rw [cacheTitle_concat t x h1, cacheBody_concat t x h1, h2, h3]
    rfl

/-- Witness for C7 at a concrete newline-free, whitespace-free page. -/
theorem c7_witness :
    ('\n' ∉ "T".toList) ∧ pyStrip "T" = "T" ∧ pyStrip "b" = "b"
    ∧ (fetchFromUrlOrCache (Article.init (some "u") none) true none (some ("T", "b")) =
        .ok ⟨⟨some "u", none, some "T", some "b"⟩, some ("T" ++ "\n" ++ "b"), true⟩
      ∧ fetchFromUrlOrCache (Article.init (some "u") none) true
          (some ("T" ++ "\n" ++ "b")) none =
        .ok ⟨⟨some "u", some (cachePathOf "u"), some "T", some "b"⟩,
          some ("T" ++ "\n" ++ "b"), false⟩) :=
  ⟨by decide, by decide, by decide,
   c7_cache_roundtrip "u" "T" "b" none (by decide) (by decide) (by decide)⟩

/-- A network oracle for the CLI model: every article has a body. -/
def netBody : String → Option String :=
  fun _ => some "body"

/-- A generator oracle for the CLI model: one cloze card per article. -/
def genOneCard : String → List String × List String :=
  fun _ => (["a ; ;"], [])

/-- Claim C8: with the ledger model from spec section 4.6 (the missing
`articles_to_anki.articles` module), a second run over the same source list
without `--process_all` exports nothing, and every (identifier, deck) pair
recorded during the first run produces only a skip action - no fetch, no
generation, no export - on the second run. -/
theorem c8_second_run_no_new_exports (deck : String) (net : String → Option String)
    (gen : String → List String × List String) (ids : List String) (id : String)
    (hmem : (id, deck) ∈ (cli_run deck false net gen ids []).1) :
    ((cli_run deck false net gen ids (cli_run deck false net gen ids []).1).2.all
      (fun a => !a.isExport)) = true
    ∧ ((cli_run deck false net gen ids (cli_run deck false net gen ids []).1).2.all
      (fun a => !(a.ident == id) || (a == CliAction.skippedProcessed id))) = true := by
  constructor
  · rw [List.all_eq_true]
    intro a ha
    have hcov : ∀ i ∈ ids, (i, deck) ∈ (cli_run deck false net gen ids []).1
        ∨ cardsOf net gen i = ([], []) :=
      fun i hi => cli_run_coverage deck net gen ids [] i hi
    have he := cli_run_no_exports deck net gen ids _ hcov a ha
    simp [he]
  · rw [List.all_eq_true]
    intro a ha
    by_cases hb : a.ident = id
    · have hs := cli_run_skips_processed deck net gen ids _ id hmem a ha hb
      simp [hs]
    · simp [hb]

/-- Witness for C8 at a concrete one-article list whose first run exports. -/
theorem c8_witness :
    ("a", "D") ∈ (cli_run "D" false netBody genOneCard ["a"] []).1
    ∧ (((cli_run "D" false netBody genOneCard ["a"]
          (cli_run "D" false netBody genOneCard ["a"] []).1).2.all
        (fun a => !a.isExport)) = true
      ∧ ((cli_run "D" false netBody genOneCard ["a"]
          (cli_run "D" false netBody genOneCard ["a"] []).1).2.all
        (fun a => !(a.ident == "a") || (a == CliAction.skippedProcessed "a"))) = true) :=
  ⟨by decide, c8_second_run_no_new_exports "D" netBody genOneCard ["a"] "a" (by decide)⟩

/-- Claim C9 counterexample: on a cache hit (articles.py line 72) the fetch
sets `file_path` to the cache path while `url` remains set, so both identity
fields are populated at once. -/
theorem c9_counterexample :
    fetchFromUrlOrCache (Article.init (some "u") none) true (some "T\nb") none =
      .ok ⟨⟨some "u", some ".article_cache/u.txt", some "T", some "b"⟩,
        some "T\nb", false⟩
    ∧ (Article.url ⟨some "u", some ".article_cache/u.txt", some "T", some "b"⟩).isSome = true
    ∧ (Article.file_path ⟨some "u", some ".article_cache/u.txt", some "T", some "b"⟩).isSome
        = true := by
  exact ⟨rfl, rfl, rfl⟩

/-- Claim C9 as amended: construction stores exactly the identity arguments
given (no mutual-exclusivity check), a fetch without caching leaves a
`file_path` of a URL article unset, but a fetch with caching when the cache file
exists sets `file_path` to the cache path while `url` stays set - the two
identity fields are then both populated. -/
theorem c9_identity_fields (url c : String) (cache : Option String)
    (net : Option (String × String)) (r1 r2 : FetchResult)
    (hr1 : fetchFromUrlOrCache (Article.init (some url) none) false cache net = .ok r1)
    (hr2 : fetchFromUrlOrCache (Article.init (some url) none) true (some c) net = .ok r2) :
    Article.init (some url) none = ⟨some url, none, none, none⟩
    ∧ r1.article.url = some url ∧ r1.article.file_path = none
    ∧ r2.article.url = some url ∧ r2.article.file_path = some (cachePathOf url) := by
  have hga : ∀ (a : Article) (uc : Bool) (ca : Option String) (r : FetchResult),
      fetchNetwork a uc ca net = .ok r →
        r.article.url = a.url ∧ r.article.file_path = a.file_path := by
    intro a uc ca r hr
    cases hn : net with
    | none =>
      rw [hn] at hr
      simp [fetchNetwork] at hr
    | some p =>
      rw [hn] at hr
      obtain ⟨t0, x0⟩ := p
      simp only [fetchNetwork] at hr
      injection hr with hr
      subst hr
      exact ⟨rfl, rfl⟩
  rw [fetch_no_cache] at hr1
  have p1 := hga _ _ _ _ hr1
  rw [fetch_cache_some] at hr2
  by_cases hc : c = ""
  · rw [if_pos hc] at hr2
    have p2 := hga _ _ _ _ hr2
    exact ⟨rfl, p1.1, p1.2, p2.1, p2.2⟩
  · rw [if_neg hc] at hr2
    injection hr2 with hr2
    subst hr2
    exact ⟨rfl, p1.1, p1.2, rfl, rfl⟩

/-- Witness for C9 at a concrete URL, cache file and page. -/
theorem c9_witness :
    fetchFromUrlOrCache (Article.init (some "u") none) false none (some ("T", "b")) =
      .ok ⟨⟨some "u", none, some "T", some "b"⟩, none, true⟩
    ∧ fetchFromUrlOrCache (Article.init (some "u") none) true (some "T\nb")
        (some ("T", "b")) =
      .ok ⟨⟨some "u", some (cachePathOf "u"), some "T", some "b"⟩, some "T\nb", false⟩
    ∧ (Article.init (some "u") none = ⟨some "u", none, none, none⟩
      ∧ (⟨⟨some "u", none, some "T", some "b"⟩, none, true⟩ : FetchResult).article.url
          = some "u"
      ∧ (⟨⟨some "u", none, some "T", some "b"⟩, none, true⟩ : FetchResult).article.file_path
          = none
      ∧ (⟨⟨some "u", some (cachePathOf "u"), some "T", some "b"⟩, some "T\nb", false⟩
          : FetchResult).article.url = some "u"
      ∧ (⟨⟨some "u", some (cachePathOf "u"), some "T", some "b"⟩, some "T\nb", false⟩
          : FetchResult).article.file_path = some (cachePathOf "u")) :=
  ⟨rfl, rfl, c9_identity_fields "u" "T\nb" none (some ("T", "b")) _ _ rfl rfl⟩

/-- Claim C10: a cache file that exists but is empty is treated as a miss:
`file_path` is still set to the cache path (articles.py line 72), the URL is
fetched over the network, and the cache file is overwritten with the new
`title + "\n" + body`; a cache file with any content is instead read, with no
network request and no write - so the empty-file case is the only way an
existing entry is rewritten. -/
theorem c10_empty_cache_refetch (url t x c : String) (net : Option (String × String))
    (r : FetchResult) (hc : c ≠ "")
    (hr : fetchFromUrlOrCache (Article.init (some url) none) true (some c) net = .ok r) :
    fetchFromUrlOrCache (Article.init (some url) none) true (some "") (some (t, x)) =
      .ok ⟨⟨some url, some (cachePathOf url), some t, some x⟩,
        some (t ++ "\n" ++ x), true⟩
    ∧ r.cacheAfter = some c ∧ r.networkUsed = false := by
  constructor
  · rfl
  · rw [fetch_cache_some, if_neg hc] at hr
    injection hr with hr
    subst hr
    exact ⟨rfl, rfl⟩

/-- Witness for C10 at a concrete URL, empty and nonempty cache files. -/
theorem c10_witness :
    ("T\nb" : String) ≠ ""
    ∧ fetchFromUrlOrCache (Article.init (some "u") none) true (some "T\nb") none =
      .ok ⟨⟨some "u", some (cachePathOf "u"), some "T", some "b"⟩, some "T\nb", false⟩
    ∧ (fetchFromUrlOrCache (Article.init (some "u") none) true (some "")
          (some ("T", "b")) =
        .ok ⟨⟨some "u", some (cachePathOf "u"), some "T", some "b"⟩,
          some ("T" ++ "\n" ++ "b"), true⟩
      ∧ (⟨⟨some "u", some (cachePathOf "u"), some "T", some "b"⟩, some "T\nb", false⟩
          : FetchResult).cacheAfter = some "T\nb"
      ∧ (⟨⟨some "u", some (cachePathOf "u"), some "T", some "b"⟩, some "T\nb", false⟩
          : FetchResult).networkUsed = false) :=
  ⟨by decide, rfl,
   c10_empty_cache_refetch "u" "T" "b" "T\nb" none _ (by decide) rfl⟩

end ArticlesToAnki
